import Mathlib

/-!
Verification of the upload/index/query orchestration layer of the Grader
repository (frontend/src/components/ChatPanel.tsx, component
DocumentRAGPanel).  The React component state and its handler functions are
shallowly embedded as pure Lean functions on explicit state records:

* `UploadFileItem`, `FileUploadStatus` — the multi-file upload queue entries
  (ChatPanel.tsx lines 219–231);
* `handleFileSelect`, `removeFileFromQueue`, `clearAllFiles`,
  `handleUploadAndIndex` — the queue operations (lines 611–792);
* the topic-selection modal state and its handlers `openTopicModal`,
  `closeTopicModal`, `saveTopicSelections`, `toggleDocumentInModal`,
  `toggleTopicInModal`, `saveTopicsToBackend` (lines 420–609);
* `handleGenerateQuiz` (lines 853–891).

External HTTP calls (`uploadAndIndexDocument`, `getDocumentTopics`,
`updateDocumentTopics`, `generateQuiz`) are modelled as oracle arguments:
`Except` values distinguish a structured response (`Except.ok`) from a
thrown transport error (`Except.error`).  User-visible Vietnamese display
strings are abstracted into inductive message constructors that carry
exactly the data the source interpolates into the string; each constructor
is annotated with the source text it stands for.  JavaScript `File` objects
are modelled by a record carrying the fields the code reads (`name`,
`size`) plus an `id` standing for JavaScript object identity (the source
compares files with `===` in one place).  React `setX` calls become field
updates; updater functions `setX(prev => ...)` are applied to the threaded
state.  The `await`ed 300 ms delay between queue items and the trailing
`loadIndexStats`/`loadUploadedFiles`/`loadIndexedDocuments` refreshes
(pure reads into display state not touched by any claim) are omitted.
-/

/-- JavaScript `File` object as read by the component: `name`, `size`, and
an `id` modelling reference identity (for the single `===` comparison in
`removeFileFromQueue`). -/
structure JSFile where
  name : String
  size : Nat
  id : Nat
deriving DecidableEq, Repr

/-- ChatPanel.tsx line 220:
`type FileUploadStatus = 'waiting' | 'uploading' | 'success' | 'error' | 'already_indexed'`. -/
inductive FileUploadStatus where
  | waiting
  | uploading
  | success
  | error
  | already_indexed
deriving DecidableEq, Repr

/-- Per-item display message, abstracting the Vietnamese strings assigned to
`UploadFileItem.message` in `handleUploadAndIndex`; each constructor carries
the data interpolated into the source string. -/
inductive ItemMsg where
  /-- line 711: the fixed already-in-database text. -/
  | alreadyInDb
  /-- line 721: the interpolated pages/chunks text built from
  `response.pages_loaded` and `response.chunks_added`. -/
  | pagesChunks (pages chunks : Option Nat)
  /-- line 736: `response.error || <fixed fallback text>`. -/
  | appError (e : Option String)
  /-- line 747: the fixed server-connection-error text. -/
  | connError
deriving DecidableEq, Repr

/-- ChatPanel.tsx lines 226–230: the optional `details` payload. -/
structure UploadDetails where
  filename : Option String
  pages_loaded : Option Nat
  chunks_added : Option Nat
deriving DecidableEq, Repr

/-- ChatPanel.tsx lines 222–231: one entry of the upload queue. -/
structure UploadFileItem where
  file : JSFile
  status : FileUploadStatus
  message : Option ItemMsg := none
  details : Option UploadDetails := none
deriving DecidableEq, Repr

/-- Response shape of the external `uploadAndIndexDocument` call as read by
`handleUploadAndIndex` (fields `success`, `already_indexed`, `filename`,
`pages_loaded`, `chunks_added`, `error`). -/
structure IndexResponse where
  success : Bool
  already_indexed : Bool
  filename : Option String := none
  pages_loaded : Option Nat := none
  chunks_added : Option Nat := none
  error : Option String := none
deriving DecidableEq, Repr

/-- Outcome of one external indexing call: `Except.ok` is a structured
response, `Except.error` a thrown transport error (the `catch` branch). -/
abbrev IndexOutcome := Except String IndexResponse

/-- Aggregate message set into `uploadMessage`, abstracting the Vietnamese
texts; constructors carry the interpolated counts or names. -/
inductive UploadMessage where
  /-- line 676: the select-a-PDF prompt (type error). -/
  | selectPdfPrompt
  /-- lines 634–637: unsupported (non-PDF) file names joined into an error
  message (type error). -/
  | unsupportedFiles (names : List String)
  /-- lines 770–774: all processed files were already indexed (type info). -/
  | alreadyOnly (already : Nat)
  /-- lines 775–779: some new, some already indexed (type success). -/
  | mixedDone (succ already : Nat)
  /-- lines 780–785: all processed files newly indexed (type success). -/
  | allIndexed (succ : Nat)
  /-- lines 786–790: at least one failure; reports all three counts
  (type info). -/
  | doneWithErrors (succ already err : Nat)
deriving DecidableEq, Repr

/-- Slice of the DocumentRAGPanel React state driving the upload queue
(lines 238–240, 287, 297). -/
structure PanelState where
  selectedFile : Option JSFile
  selectedFiles : List UploadFileItem
  isUploading : Bool
  isProcessingQueue : Bool
  uploadMessage : Option UploadMessage
deriving DecidableEq, Repr

/-- The updater `prev.map((f, idx) => idx === i ? g(f) : f)` used by every
per-item status write in `handleUploadAndIndex`. -/
def setFileAt (prev : List UploadFileItem) (i : Nat)
    (g : UploadFileItem → UploadFileItem) : List UploadFileItem :=
  prev.mapIdx fun idx f => if idx = i then g f else f

/-- Terminal status assigned by the body of the processing loop
(lines 704–749) as a function of the call outcome. -/
def outcomeStatus (o : IndexOutcome) : FileUploadStatus :=
  match o with
  | .ok r =>
      if r.success then
        if r.already_indexed then .already_indexed else .success
      else .error
  | .error _ => .error

/-- Field updates applied to the in-flight item by the branch of
lines 704–749 selected by the call outcome. -/
def applyOutcome (f : UploadFileItem) (o : IndexOutcome) : UploadFileItem :=
  match o with
  | .ok r =>
      if r.success then
        if r.already_indexed then
          { f with status := .already_indexed,
                   message := some .alreadyInDb,
                   details := some ⟨r.filename, none, none⟩ }
        else
          { f with status := .success,
                   message := some (.pagesChunks r.pages_loaded r.chunks_added),
                   details := some ⟨r.filename, r.pages_loaded, r.chunks_added⟩ }
      else
        { f with status := .error, message := some (.appError r.error) }
  | .error _ =>
      { f with status := .error, message := some .connError }

/-- Result of one drain of the queue: final queue, the three local counters
(`successCount`, `alreadyIndexedCount`, `errorCount`), the ordered trace of
status writes `(index, newStatus)`, and the number of external calls. -/
structure DrainOut where
  queue : List UploadFileItem
  succ : Nat
  already : Nat
  err : Nat
  trace : List (Nat × FileUploadStatus)
  calls : Nat
deriving DecidableEq, Repr

/-- The `for (let i = 0; ...)` loop of lines 690–756, iterated over the
remaining index list.  `snapshot` is the `selectedFiles` array captured by
the handler closure: the skip test of line 694 reads it, while the
functional `setSelectedFiles` updates act on the threaded live list. -/
def drainFrom (oracle : Nat → IndexOutcome) (snapshot : List UploadFileItem) :
    List Nat → List UploadFileItem → DrainOut
  | [], live => ⟨live, 0, 0, 0, [], 0⟩
  | i :: rest, live =>
    match snapshot[i]? with
    | none => drainFrom oracle snapshot rest live
    | some it =>
      if it.status = .waiting then
        let live1 := setFileAt live i fun f => { f with status := .uploading }
        let o := oracle i
        let live2 := setFileAt live1 i fun f => applyOutcome f o
        let d := drainFrom oracle snapshot rest live2
        { queue := d.queue,
          succ := (if outcomeStatus o = .success then 1 else 0) + d.succ,
          already := (if outcomeStatus o = .already_indexed then 1 else 0) + d.already,
          err := (if outcomeStatus o = .error then 1 else 0) + d.err,
          trace := (i, .uploading) :: (i, outcomeStatus o) :: d.trace,
          calls := d.calls + 1 }
      else drainFrom oracle snapshot rest live

/-- Full drain of a queue, indices 0 to length-1 in order. -/
def drainOf (q : List UploadFileItem) (oracle : Nat → IndexOutcome) : DrainOut :=
  drainFrom oracle q (List.range q.length) q

/-- Summary message computation of lines 766–791 from the three counters. -/
def summaryMessage (succ already err : Nat) : Option UploadMessage :=
  let totalProcessed := succ + already + err
  if err = 0 ∧ totalProcessed ≠ 0 then
    if already ≠ 0 ∧ succ = 0 then some (.alreadyOnly already)
    else if already ≠ 0 then some (.mixedDone succ already)
    else some (.allIndexed succ)
  else if err ≠ 0 then some (.doneWithErrors succ already err)
  else none

/-- ChatPanel.tsx lines 674–792, `handleUploadAndIndex`: empty-queue guard,
sequential drain, flag resets, aggregate message.  Returns the final state
together with the drain record (the trace and call count are observations
of the run, not component state). -/
def handleUploadAndIndex (st : PanelState) (oracle : Nat → IndexOutcome) :
    PanelState × DrainOut :=
  if st.selectedFiles.length = 0 then
    ({ st with uploadMessage := some .selectPdfPrompt },
     ⟨st.selectedFiles, 0, 0, 0, [], 0⟩)
  else
    let d := drainOf st.selectedFiles oracle
    ({ st with selectedFiles := d.queue,
               isUploading := false,
               isProcessingQueue := false,
               uploadMessage := summaryMessage d.succ d.already d.err },
     d)

/-- Whether the item at index `i` of queue `q` has status `waiting` (the
skip test of line 694, read on the closure snapshot). -/
def isWaitingAt (q : List UploadFileItem) (i : Nat) : Bool :=
  match q[i]? with
  | some it => decide (it.status = .waiting)
  | none => false

/-- Indices of the queue items the loop actually processes: those whose
status in the closure snapshot is `waiting`. -/
def waitingIdxs (q : List UploadFileItem) : List Nat :=
  (List.range q.length).filter (isWaitingAt q)

/-- Statuses from which the drain loop makes no further transition. -/
def FileUploadStatus.isTerminal : FileUploadStatus → Bool
  | .success => true
  | .already_indexed => true
  | .error => true
  | _ => false

/-! ### Basic lemmas about the drain loop -/

theorem setFileAt_getElem? (l : List UploadFileItem) (i j : Nat)
    (g : UploadFileItem → UploadFileItem) :
    (setFileAt l i g)[j]? = if j = i then l[j]?.map g else l[j]? := by
  unfold setFileAt
  simp only [List.getElem?_mapIdx]
  by_cases h : j = i
  · simp [h]
  · cases l[j]? <;> simp [h]

theorem applyOutcome_status (f : UploadFileItem) (o : IndexOutcome) :
    (applyOutcome f o).status = outcomeStatus o := by
  cases o with
  | ok r =>
    by_cases h1 : r.success <;> by_cases h2 : r.already_indexed <;>
      simp [applyOutcome, outcomeStatus, h1, h2]
  | error e => simp [applyOutcome, outcomeStatus]

theorem outcomeStatus_isTerminal (o : IndexOutcome) :
    (outcomeStatus o).isTerminal = true := by
  cases o with
  | ok r =>
    by_cases h1 : r.success <;> by_cases h2 : r.already_indexed <;>
      simp [outcomeStatus, h1, h2, FileUploadStatus.isTerminal]
  | error e => simp [outcomeStatus, FileUploadStatus.isTerminal]

theorem drainFrom_trace (oracle : Nat → IndexOutcome)
    (snapshot : List UploadFileItem) (idxs : List Nat) :
    ∀ live, (drainFrom oracle snapshot idxs live).trace =
      (idxs.filter (isWaitingAt snapshot)).flatMap
        fun i => [(i, FileUploadStatus.uploading), (i, outcomeStatus (oracle i))] := by
  induction idxs with
  | nil => intro live; simp [drainFrom]
  | cons i rest ih =>
    intro live
    unfold drainFrom
    cases h : snapshot[i]? with
    | none => simp [isWaitingAt, h, List.filter_cons, ih]
    | some it =>
      by_cases hw : it.status = .waiting <;>
        simp [isWaitingAt, h, hw, List.filter_cons, ih]

theorem drainFrom_calls (oracle : Nat → IndexOutcome)
    (snapshot : List UploadFileItem) (idxs : List Nat) :
    ∀ live, (drainFrom oracle snapshot idxs live).calls =
      (idxs.filter (isWaitingAt snapshot)).length := by
  induction idxs with
  | nil => intro live; simp [drainFrom]
  | cons i rest ih =>
    intro live
    unfold drainFrom
    cases h : snapshot[i]? with
    | none => simp [isWaitingAt, h, List.filter_cons, ih]
    | some it =>
      by_cases hw : it.status = .waiting <;>
        simp [isWaitingAt, h, hw, List.filter_cons, ih]

theorem drainFrom_succ (oracle : Nat → IndexOutcome)
    (snapshot : List UploadFileItem) (idxs : List Nat) :
    ∀ live, (drainFrom oracle snapshot idxs live).succ =
      (idxs.filter (isWaitingAt snapshot)).countP
        fun i => decide (outcomeStatus (oracle i) = .success) := by
  induction idxs with
  | nil => intro live; simp [drainFrom]
  | cons i rest ih =>
    intro live
    unfold drainFrom
    cases h : snapshot[i]? with
    | none => simp [isWaitingAt, h, List.filter_cons, ih]
    | some it =>
      by_cases hw : it.status = .waiting <;>
        by_cases ho : outcomeStatus (oracle i) = .success <;>
          simp [isWaitingAt, h, hw, ho, List.filter_cons, List.countP_cons, ih,
            Nat.add_comm]

theorem drainFrom_already (oracle : Nat → IndexOutcome)
    (snapshot : List UploadFileItem) (idxs : List Nat) :
    ∀ live, (drainFrom oracle snapshot idxs live).already =
      (idxs.filter (isWaitingAt snapshot)).countP
        fun i => decide (outcomeStatus (oracle i) = .already_indexed) := by
  induction idxs with
  | nil => intro live; simp [drainFrom]
  | cons i rest ih =>
    intro live
    unfold drainFrom
    cases h : snapshot[i]? with
    | none => simp [isWaitingAt, h, List.filter_cons, ih]
    | some it =>
      by_cases hw : it.status = .waiting <;>
        by_cases ho : outcomeStatus (oracle i) = .already_indexed <;>
          simp [isWaitingAt, h, hw, ho, List.filter_cons, List.countP_cons, ih,
            Nat.add_comm]

theorem drainFrom_err (oracle : Nat → IndexOutcome)
    (snapshot : List UploadFileItem) (idxs : List Nat) :
    ∀ live, (drainFrom oracle snapshot idxs live).err =
      (idxs.filter (isWaitingAt snapshot)).countP
        fun i => decide (outcomeStatus (oracle i) = .error) := by
  induction idxs with
  | nil => intro live; simp [drainFrom]
  | cons i rest ih =>
    intro live
    unfold drainFrom
    cases h : snapshot[i]? with
    | none => simp [isWaitingAt, h, List.filter_cons, ih]
    | some it =>
      by_cases hw : it.status = .waiting <;>
        by_cases ho : outcomeStatus (oracle i) = .error <;>
          simp [isWaitingAt, h, hw, ho, List.filter_cons, List.countP_cons, ih,
            Nat.add_comm]

theorem drainFrom_queue_notMem (oracle : Nat → IndexOutcome)
    (snapshot : List UploadFileItem) (idxs : List Nat) (j : Nat)
    (hj : j ∉ idxs) :
    ∀ live, (drainFrom oracle snapshot idxs live).queue[j]? = live[j]? := by
  induction idxs with
  | nil => intro live; simp [drainFrom]
  | cons i rest ih =>
    intro live
    have hji : j ≠ i := fun h => hj (h ▸ List.mem_cons_self i rest)
    have hjr : j ∉ rest := fun h => hj (List.mem_cons_of_mem i h)
    unfold drainFrom
    cases h : snapshot[i]? with
    | none => exact ih hjr live
    | some it =>
      dsimp only
      by_cases hw : it.status = .waiting
      · rw [if_pos hw]
        dsimp only
        rw [ih hjr, setFileAt_getElem?, setFileAt_getElem?,
          if_neg hji, if_neg hji]
      · rw [if_neg hw]
        exact ih hjr live

theorem drainFrom_queue_skip (oracle : Nat → IndexOutcome)
    (snapshot : List UploadFileItem) (idxs : List Nat) (j : Nat)
    (hj : isWaitingAt snapshot j = false) :
    ∀ live, (drainFrom oracle snapshot idxs live).queue[j]? = live[j]? := by
  induction idxs with
  | nil => intro live; simp [drainFrom]
  | cons i rest ih =>
    intro live
    unfold drainFrom
    cases h : snapshot[i]? with
    | none => exact ih live
    | some it =>
      dsimp only
      by_cases hw : it.status = .waiting
      · have hji : j ≠ i := by
          intro hrfl
          rw [hrfl, isWaitingAt, h] at hj
          simp [hw] at hj
        rw [if_pos hw]
        dsimp only
        rw [ih, setFileAt_getElem?, setFileAt_getElem?, if_neg hji, if_neg hji]
      · rw [if_neg hw]
        exact ih live

theorem drainFrom_queue_waiting (oracle : Nat → IndexOutcome)
    (snapshot : List UploadFileItem) (idxs : List Nat) (j : Nat)
    (hnd : idxs.Nodup) (hj : j ∈ idxs) (it : UploadFileItem)
    (hit : snapshot[j]? = some it) (hw : it.status = .waiting) :
    ∀ live, (drainFrom oracle snapshot idxs live).queue[j]? =
      live[j]?.map fun f =>
        applyOutcome { f with status := .uploading } (oracle j) := by
  induction idxs with
  | nil => cases hj
  | cons i rest ih =>
    intro live
    rcases List.mem_cons.mp hj with hrfl | hmem
    · subst hrfl
      have hjr : j ∉ rest := (List.nodup_cons.mp hnd).1
      unfold drainFrom
      rw [hit]
      dsimp only
      rw [if_pos hw]
      dsimp only
      rw [drainFrom_queue_notMem oracle snapshot rest j hjr,
        setFileAt_getElem?, setFileAt_getElem?, if_pos rfl, if_pos rfl]
      cases live[j]? <;> simp
    · have hnd2 : rest.Nodup := (List.nodup_cons.mp hnd).2
      unfold drainFrom
      cases h : snapshot[i]? with
      | none => exact ih hnd2 hmem live
      | some iti =>
        dsimp only
        by_cases hwi : iti.status = .waiting
        · have hji : j ≠ i := by
            intro hrfl
            exact (List.nodup_cons.mp hnd).1 (hrfl ▸ hmem)
          rw [if_pos hwi]
          dsimp only
          rw [ih hnd2 hmem, setFileAt_getElem?, setFileAt_getElem?,
            if_neg hji, if_neg hji]
        · rw [if_neg hwi]
          exact ih hnd2 hmem live

/-! ### Claim C1 — drain order and per-item status transitions -/

/-- C1: for every queue processed by `handleUploadAndIndex`, items are
drained strictly in insertion order, items not in Waiting status are skipped
(and left untouched), and each processed item transitions
`waiting → uploading → exactly one terminal state` among
`{success, already_indexed, error}`, never reversed or skipped, with
terminal states assigned in insertion order: the complete ordered trace of
status writes is the in-order concatenation, over the waiting indices in
ascending order, of the two-step segment
`[(i, uploading), (i, terminal i)]`. -/
theorem claim1_drain_order_and_transitions (st : PanelState)
    (oracle : Nat → IndexOutcome) :
    ((handleUploadAndIndex st oracle).2.trace =
      (waitingIdxs st.selectedFiles).flatMap
        fun i => [(i, FileUploadStatus.uploading), (i, outcomeStatus (oracle i))]) ∧
    (waitingIdxs st.selectedFiles).Pairwise (· < ·) ∧
    (∀ (i : Nat) (it : UploadFileItem),
      st.selectedFiles[i]? = some it → it.status ≠ .waiting →
      (handleUploadAndIndex st oracle).1.selectedFiles[i]? = some it) ∧
    (∀ (i : Nat) (it : UploadFileItem),
      st.selectedFiles[i]? = some it → it.status = .waiting →
      (handleUploadAndIndex st oracle).1.selectedFiles[i]? =
        some (applyOutcome { it with status := .uploading } (oracle i)) ∧
      (applyOutcome { it with status := .uploading } (oracle i)).status =
        outcomeStatus (oracle i) ∧
      (outcomeStatus (oracle i)).isTerminal = true) := by
  have hpw : (waitingIdxs st.selectedFiles).Pairwise (· < ·) :=
    (List.pairwise_lt_range _).filter _
  by_cases hlen : st.selectedFiles.length = 0
  · have hq : st.selectedFiles = [] := List.length_eq_zero.mp hlen
    refine ⟨?_, hpw, ?_, ?_⟩
    · unfold handleUploadAndIndex
      rw [if_pos hlen]
      dsimp only
      rw [hq]
      rfl
    · intro i it hit _
      rw [hq] at hit
      simp at hit
    · intro i it hit _
      rw [hq] at hit
      simp at hit
  · refine ⟨?_, hpw, ?_, ?_⟩
    · unfold handleUploadAndIndex
      rw [if_neg hlen]
      dsimp only
      unfold drainOf
      rw [drainFrom_trace]
      rfl
    · intro i it hit hns
      have hw : isWaitingAt st.selectedFiles i = false := by
        rw [isWaitingAt, hit]
        simpa using hns
      unfold handleUploadAndIndex
      rw [if_neg hlen]
      dsimp only
      unfold drainOf
      rw [drainFrom_queue_skip _ _ _ _ hw]
      exact hit
    · intro i it hit hws
      have hmem : i ∈ List.range st.selectedFiles.length :=
        List.mem_range.mpr (List.getElem?_eq_some.mp hit).1
      refine ⟨?_, applyOutcome_status _ _, outcomeStatus_isTerminal _⟩
      unfold handleUploadAndIndex
      rw [if_neg hlen]
      dsimp only
      unfold drainOf
      rw [drainFrom_queue_waiting oracle st.selectedFiles _ i
        (List.nodup_range _) hmem it hit hws, hit]
      rfl

/-- Concrete queue for the C1 witness: item 0 waiting, item 1 already in a
terminal state, item 2 waiting. -/
def c1Queue : List UploadFileItem :=
  [⟨⟨"a.pdf", 10, 0⟩, .waiting, none, none⟩,
   ⟨⟨"b.pdf", 20, 1⟩, .success, none, none⟩,
   ⟨⟨"c.pdf", 30, 2⟩, .waiting, none, none⟩]

/-- Panel state holding `c1Queue`. -/
def c1State : PanelState := ⟨none, c1Queue, false, false, none⟩

/-- Oracle for the C1 witness: item 0 indexes successfully, item 2 hits a
transport error. -/
def c1Oracle : Nat → IndexOutcome := fun i =>
  if i = 0 then .ok ⟨true, false, some "a.pdf", some 3, some 5, none⟩
  else .error "ECONNREFUSED"

/-- Witness for C1 at a concrete queue: the trace interleaves nothing, the
skipped item is untouched, and both processed items end terminal. -/
theorem claim1_drain_order_and_transitions_witness :
    (handleUploadAndIndex c1State c1Oracle).2.trace =
      [(0, FileUploadStatus.uploading), (0, FileUploadStatus.success),
       (2, FileUploadStatus.uploading), (2, FileUploadStatus.error)] ∧
    (handleUploadAndIndex c1State c1Oracle).1.selectedFiles[1]? =
      some ⟨⟨"b.pdf", 20, 1⟩, .success, none, none⟩ ∧
    (outcomeStatus (c1Oracle 2)).isTerminal = true := by
  refine ⟨?_, ?_, ?_⟩
  · rw [(claim1_drain_order_and_transitions c1State c1Oracle).1]
    rfl
  · exact (claim1_drain_order_and_transitions c1State c1Oracle).2.2.1 1
      ⟨⟨"b.pdf", 20, 1⟩, .success, none, none⟩ rfl (by decide)
  · exact ((claim1_drain_order_and_transitions c1State c1Oracle).2.2.2 2
      ⟨⟨"c.pdf", 30, 2⟩, .waiting, none, none⟩ rfl rfl).2.2

/-! ### Claim C2 — failure isolation and aggregate summary thresholds -/

/-- Queue for the C2 counterexample: one item, already in a terminal state
from an earlier drain, so the new drain processes nothing. -/
def c2TermQueue : List UploadFileItem :=
  [⟨⟨"a.pdf", 10, 0⟩, .success, none, none⟩]

/-- Panel state holding `c2TermQueue`. -/
def c2TermState : PanelState := ⟨none, c2TermQueue, false, false, none⟩

/-- Oracle for the C2 counterexample (never reached). -/
def c2TermOracle : Nat → IndexOutcome := fun _ => .error "unreachable"

/-- Counterexample to C2 as stated.  The claim demands that after every
drain with Failed = 0 and AlreadyIndexed = 0 the summary reports all
succeeded.  Draining a non-empty queue whose only item is already terminal
yields counters Indexed = AlreadyIndexed = Failed = 0 and no summary
message at all (`handleUploadAndIndex` emits a message only when
`totalProcessed > 0` or on the empty-queue guard), so no all-succeeded
report is produced. -/
theorem claim2_counterexample :
    (handleUploadAndIndex c2TermState c2TermOracle).2.succ = 0 ∧
    (handleUploadAndIndex c2TermState c2TermOracle).2.already = 0 ∧
    (handleUploadAndIndex c2TermState c2TermOracle).2.err = 0 ∧
    (handleUploadAndIndex c2TermState c2TermOracle).1.uploadMessage = none := by
  refine ⟨rfl, rfl, rfl, rfl⟩

/-- Summary lemma: zero failures, zero already-indexed, at least one newly
indexed yields the all-succeeded message. -/
theorem summaryMessage_allIndexed (s a e : Nat) (he : e = 0) (ha : a = 0)
    (hs : s ≠ 0) : summaryMessage s a e = some (.allIndexed s) := by
  subst he ha
  simp [summaryMessage, hs]

/-- Summary lemma: zero failures, only already-indexed items yields the
already-present message. -/
theorem summaryMessage_alreadyOnly (s a e : Nat) (he : e = 0) (ha : a ≠ 0)
    (hs : s = 0) : summaryMessage s a e = some (.alreadyOnly a) := by
  subst he hs
  simp [summaryMessage, ha]

/-- Summary lemma: zero failures with both new and already-indexed items
yields the mixed message. -/
theorem summaryMessage_mixed (s a e : Nat) (he : e = 0) (ha : a ≠ 0)
    (hs : s ≠ 0) : summaryMessage s a e = some (.mixedDone s a) := by
  subst he
  simp [summaryMessage, ha, hs]

/-- Summary lemma: any failure yields the partial-failure message with all
three counts. -/
theorem summaryMessage_errors (s a e : Nat) (he : e ≠ 0) :
    summaryMessage s a e = some (.doneWithErrors s a e) := by
  have h1 : ¬(e = 0 ∧ s + a + e ≠ 0) := fun h => he h.1
  rw [summaryMessage]
  simp only [h1, if_false, if_neg h1]
  rw [if_pos he]

/-- C2 amended: for every queue drain, processing continues past failing
items — the number of external calls equals the number of Waiting items
independently of any outcome, and each Waiting item's terminal status is a
function of its own call outcome alone — and the counters are the exact
per-category counts over the processed items.  Provided at least one item
was processed, the summary follows the claimed thresholds: Failed = 0 and
AlreadyIndexed = 0 reports all succeeded; Failed = 0 and AlreadyIndexed > 0
reports already-present (when Indexed = 0) or mixed (when Indexed > 0);
Failed > 0 reports the partial-failure message carrying all three counts.
When the drain processes no item, no such summary is emitted
(`claim2_counterexample`). -/
theorem claim2_failure_isolation_and_summary (st : PanelState)
    (oracle : Nat → IndexOutcome) :
    ((handleUploadAndIndex st oracle).2.calls =
      (waitingIdxs st.selectedFiles).length) ∧
    ((handleUploadAndIndex st oracle).2.succ =
      (waitingIdxs st.selectedFiles).countP
        (fun i => decide (outcomeStatus (oracle i) = .success)) ∧
     (handleUploadAndIndex st oracle).2.already =
      (waitingIdxs st.selectedFiles).countP
        (fun i => decide (outcomeStatus (oracle i) = .already_indexed)) ∧
     (handleUploadAndIndex st oracle).2.err =
      (waitingIdxs st.selectedFiles).countP
        (fun i => decide (outcomeStatus (oracle i) = .error))) ∧
    (∀ (i : Nat) (it : UploadFileItem),
      st.selectedFiles[i]? = some it → it.status = .waiting →
      ((handleUploadAndIndex st oracle).1.selectedFiles[i]?).map
          UploadFileItem.status = some (outcomeStatus (oracle i))) ∧
    ((handleUploadAndIndex st oracle).2.err = 0 →
      (handleUploadAndIndex st oracle).2.already = 0 →
      (handleUploadAndIndex st oracle).2.succ ≠ 0 →
      (handleUploadAndIndex st oracle).1.uploadMessage =
        some (.allIndexed (handleUploadAndIndex st oracle).2.succ)) ∧
    ((handleUploadAndIndex st oracle).2.err = 0 →
      (handleUploadAndIndex st oracle).2.already ≠ 0 →
      (handleUploadAndIndex st oracle).2.succ = 0 →
      (handleUploadAndIndex st oracle).1.uploadMessage =
        some (.alreadyOnly (handleUploadAndIndex st oracle).2.already)) ∧
    ((handleUploadAndIndex st oracle).2.err = 0 →
      (handleUploadAndIndex st oracle).2.already ≠ 0 →
      (handleUploadAndIndex st oracle).2.succ ≠ 0 →
      (handleUploadAndIndex st oracle).1.uploadMessage =
        some (.mixedDone (handleUploadAndIndex st oracle).2.succ
          (handleUploadAndIndex st oracle).2.already)) ∧
    ((handleUploadAndIndex st oracle).2.err ≠ 0 →
      (handleUploadAndIndex st oracle).1.uploadMessage =
        some (.doneWithErrors (handleUploadAndIndex st oracle).2.succ
          (handleUploadAndIndex st oracle).2.already
          (handleUploadAndIndex st oracle).2.err)) := by
  by_cases hlen : st.selectedFiles.length = 0
  · have hq : st.selectedFiles = [] := List.length_eq_zero.mp hlen
    unfold handleUploadAndIndex
    rw [if_pos hlen]
    dsimp only
    rw [hq]
    refine ⟨rfl, ⟨rfl, rfl, rfl⟩, ?_, ?_, ?_, ?_, ?_⟩
    · intro i it hit _
      simp at hit
    · intro _ _ h3
      exact absurd rfl h3
    · intro _ h2 _
      exact absurd rfl h2
    · intro _ h2 _
      exact absurd rfl h2
    · intro h1
      exact absurd rfl h1
  · unfold handleUploadAndIndex
    rw [if_neg hlen]
    dsimp only
    unfold drainOf
    refine ⟨?_, ⟨?_, ?_, ?_⟩, ?_, ?_, ?_, ?_, ?_⟩
    · rw [drainFrom_calls]
      rfl
    · rw [drainFrom_succ]
      rfl
    · rw [drainFrom_already]
      rfl
    · rw [drainFrom_err]
      rfl
    · intro i it hit hws
      have hmem : i ∈ List.range st.selectedFiles.length :=
        List.mem_range.mpr (List.getElem?_eq_some.mp hit).1
      rw [drainFrom_queue_waiting oracle st.selectedFiles _ i
        (List.nodup_range _) hmem it hit hws, hit]
      dsimp only [Option.map]
      rw [applyOutcome_status]
    · intro h1 h2 h3
      exact summaryMessage_allIndexed _ _ _ h1 h2 h3
    · intro h1 h2 h3
      exact summaryMessage_alreadyOnly _ _ _ h1 h2 h3
    · intro h1 h2 h3
      exact summaryMessage_mixed _ _ _ h1 h2 h3
    · intro h1
      exact summaryMessage_errors _ _ _ h1

/-- Queue for the C2 witness: three Waiting items (the spec scenario). -/
def c2Queue : List UploadFileItem :=
  [⟨⟨"a.pdf", 10, 0⟩, .waiting, none, none⟩,
   ⟨⟨"b.pdf", 20, 1⟩, .waiting, none, none⟩,
   ⟨⟨"c.pdf", 30, 2⟩, .waiting, none, none⟩]

/-- Panel state holding `c2Queue`. -/
def c2State : PanelState := ⟨none, c2Queue, false, false, none⟩

/-- Oracle for the C2 witness: the second item's call throws a transport
error, the other two index successfully. -/
def c2Oracle : Nat → IndexOutcome := fun i =>
  if i = 1 then .error "network down"
  else .ok ⟨true, false, none, some 1, some 2, none⟩

/-- Witness for C2 at the spec's scenario: three items, the middle call
throws; the drain still makes all three calls, the failing item alone ends
Failed, and the summary is the partial-failure message `{2, 0, 1}`. -/
theorem claim2_failure_isolation_and_summary_witness :
    (handleUploadAndIndex c2State c2Oracle).2.calls = 3 ∧
    ((handleUploadAndIndex c2State c2Oracle).1.selectedFiles[1]?).map
      UploadFileItem.status = some FileUploadStatus.error ∧
    (handleUploadAndIndex c2State c2Oracle).1.uploadMessage =
      some (.doneWithErrors 2 0 1) := by
  refine ⟨?_, ?_, ?_⟩
  · rw [(claim2_failure_isolation_and_summary c2State c2Oracle).1]
    rfl
  · exact (claim2_failure_isolation_and_summary c2State c2Oracle).2.2.1 1
      ⟨⟨"b.pdf", 20, 1⟩, .waiting, none, none⟩ rfl rfl
  · exact (claim2_failure_isolation_and_summary c2State c2Oracle).2.2.2.2.2.2
      (by decide)

/-! ### File selection: `handleFileSelect` (lines 611–650) -/

/-- Line 619 extension check:
`file.name.toLowerCase().endsWith('.pdf')`, modelled over the string's
character list (`Char.toLower` agrees with JavaScript `toLowerCase` on the
ASCII file names involved; core `String.toLower`/`String.endsWith` are
avoided because they do not reduce definitionally). -/
def isPdfName (name : String) : Bool :=
  List.isSuffixOf ".pdf".data (name.data.map Char.toLower)

/-- Identity used for queue de-duplication: file name plus size
(line 623). -/
def sameIdentity (a b : JSFile) : Bool := a.name == b.name && a.size == b.size

/-- Line 623 duplicate check:
`selectedFiles.some(f => f.file.name === file.name && f.file.size === file.size)`. -/
def fileExistsInQueue (selectedFiles : List UploadFileItem) (f : JSFile) : Bool :=
  selectedFiles.any fun it => sameIdentity it.file f

/-- The `for` loop of lines 617–631: splits the incoming file list into the
new queue entries (`newFiles`, in file order) and the rejected non-PDF
names (`errors`, in file order).  Note that the duplicate check of line 623
tests only against the pre-existing queue, not against earlier files of the
same batch. -/
def selectLoop (selectedFiles : List UploadFileItem) :
    List JSFile → List UploadFileItem × List String
  | [] => ([], [])
  | f :: rest =>
    let acc := selectLoop selectedFiles rest
    if isPdfName f.name then
      if fileExistsInQueue selectedFiles f then acc
      else (⟨f, .waiting, none, none⟩ :: acc.1, acc.2)
    else (acc.1, f.name :: acc.2)

/-- ChatPanel.tsx lines 611–650, `handleFileSelect`: filters the selected
files, reports non-PDF names, appends the new entries, and initialises
`selectedFile` from the first new entry when unset. -/
def handleFileSelect (st : PanelState) (files : List JSFile) : PanelState :=
  if files.length > 0 then
    let newFiles := (selectLoop st.selectedFiles files).1
    let errors := (selectLoop st.selectedFiles files).2
    let st1 :=
      if errors.length > 0 then
        { st with uploadMessage := some (.unsupportedFiles errors) }
      else
        { st with uploadMessage := none }
    if newFiles.length > 0 then
      { st1 with
        selectedFiles := st1.selectedFiles ++ newFiles,
        selectedFile :=
          match st1.selectedFile, newFiles.head? with
          | none, some nf => some nf.file
          | _, _ => st1.selectedFile }
    else st1
  else st

/-- No two queue entries share a name-plus-size identity. -/
def queueNoDupIdentity (q : List UploadFileItem) : Prop :=
  q.Pairwise fun a b => sameIdentity a.file b.file = false

/-- Unfolding equation of `selectLoop` on the empty batch. -/
theorem selectLoop_nil (q : List UploadFileItem) : selectLoop q [] = ([], []) := rfl

/-- Unfolding equation of `selectLoop` on a batch head. -/
theorem selectLoop_cons (q : List UploadFileItem) (f : JSFile) (rest : List JSFile) :
    selectLoop q (f :: rest) =
      if isPdfName f.name then
        if fileExistsInQueue q f then selectLoop q rest
        else (⟨f, .waiting, none, none⟩ :: (selectLoop q rest).1,
          (selectLoop q rest).2)
      else ((selectLoop q rest).1, f.name :: (selectLoop q rest).2) := rfl

/-- Every entry produced by the selection loop is a fresh Waiting entry for
one of the incoming PDF files that was not already in the queue. -/
theorem selectLoop_fst_mem (q : List UploadFileItem) (files : List JSFile)
    (it : UploadFileItem) (h : it ∈ (selectLoop q files).1) :
    it.file ∈ files ∧ it.status = .waiting ∧
    isPdfName it.file.name = true ∧ fileExistsInQueue q it.file = false := by
  induction files with
  | nil => simp [selectLoop_nil] at h
  | cons f rest ih =>
    rw [selectLoop_cons] at h
    by_cases hp : isPdfName f.name
    · rw [if_pos hp] at h
      by_cases he : fileExistsInQueue q f
      · rw [if_pos he] at h
        have := ih h
        exact ⟨List.mem_cons_of_mem f this.1, this.2⟩
      · rw [if_neg he] at h
        dsimp only at h
        rcases List.mem_cons.mp h with hrfl | hmem
        · subst hrfl
          exact ⟨List.mem_cons_self f rest, rfl, hp, by simpa using he⟩
        · have := ih hmem
          exact ⟨List.mem_cons_of_mem f this.1, this.2⟩
    · rw [if_neg hp] at h
      dsimp only at h
      have := ih h
      exact ⟨List.mem_cons_of_mem f this.1, this.2⟩

/-- If the incoming batch has pairwise-distinct identities, so do the new
queue entries built from it. -/
theorem selectLoop_fst_pairwise (q : List UploadFileItem) (files : List JSFile)
    (h : files.Pairwise fun f g => sameIdentity f g = false) :
    (selectLoop q files).1.Pairwise fun a b => sameIdentity a.file b.file = false := by
  induction files with
  | nil => simp [selectLoop_nil]
  | cons f rest ih =>
    have hhead := (List.pairwise_cons.mp h).1
    have htail := (List.pairwise_cons.mp h).2
    rw [selectLoop_cons]
    by_cases hp : isPdfName f.name
    · rw [if_pos hp]
      by_cases he : fileExistsInQueue q f
      · rw [if_pos he]
        exact ih htail
      · rw [if_neg he]
        dsimp only
        refine List.pairwise_cons.mpr ⟨?_, ih htail⟩
        intro b hb
        exact hhead b.file (selectLoop_fst_mem q rest b hb).1
    · rw [if_neg hp]
      dsimp only
      exact ih htail

/-- A PDF file of the batch whose identity is not already in the queue gets
a Waiting entry in the selection-loop output. -/
theorem selectLoop_fst_complete (q : List UploadFileItem) (files : List JSFile)
    (f : JSFile) (hf : f ∈ files) (hp : isPdfName f.name = true)
    (he : fileExistsInQueue q f = false) :
    ∃ it ∈ (selectLoop q files).1, it.file = f ∧ it.status = .waiting := by
  induction files with
  | nil => cases hf
  | cons g rest ih =>
    rw [selectLoop_cons]
    rcases List.mem_cons.mp hf with hrfl | hmem
    · subst hrfl
      rw [if_pos hp, if_neg (by simp [he])]
      exact ⟨⟨f, .waiting, none, none⟩, List.mem_cons_self _ _, rfl, rfl⟩
    · by_cases hpg : isPdfName g.name
      · rw [if_pos hpg]
        by_cases heg : fileExistsInQueue q g
        · rw [if_pos heg]
          exact ih hmem
        · rw [if_neg heg]
          obtain ⟨it, hit, hfile, hstat⟩ := ih hmem
          exact ⟨it, List.mem_cons_of_mem _ hit, hfile, hstat⟩
      · rw [if_neg hpg]
        exact ih hmem

/-- The rejected-name list of the selection loop is exactly the names of
the non-PDF files of the batch, in order. -/
theorem selectLoop_snd_eq (q : List UploadFileItem) (files : List JSFile) :
    (selectLoop q files).2 =
      (files.filter fun f => !(isPdfName f.name)).map JSFile.name := by
  induction files with
  | nil => simp [selectLoop_nil]
  | cons f rest ih =>
    rw [selectLoop_cons]
    by_cases hp : isPdfName f.name
    · rw [if_pos hp]
      by_cases he : fileExistsInQueue q f
      · rw [if_pos he]
        simp [List.filter_cons, hp, ih]
      · rw [if_neg he]
        simp [List.filter_cons, hp, ih]
    · rw [if_neg hp]
      simp [List.filter_cons, hp, ih]

/-- The absence test of line 623 unfolded: the identity of `f` matches no
entry of the queue. -/
theorem fileExistsInQueue_eq_false_iff (q : List UploadFileItem) (f : JSFile) :
    fileExistsInQueue q f = false ↔
      ∀ it ∈ q, sameIdentity it.file f = false := by
  simp [fileExistsInQueue, List.any_eq_false]

/-! ### Claim C3 — enqueue de-duplication -/

/-- Empty panel state for the C3 counterexample. -/
def c3EmptyState : PanelState := ⟨none, [], false, false, none⟩

/-- Two distinct `File` objects (different identities as JavaScript
objects) carrying the same name and size, as produced by one selection
event picking equally-named, equally-sized files from two directories. -/
def c3FileA : JSFile := ⟨"a.pdf", 1, 0⟩

/-- Second file of the C3 counterexample batch, same name and size. -/
def c3FileB : JSFile := ⟨"a.pdf", 1, 1⟩

/-- Counterexample to C3 as stated.  The duplicate check of line 623 tests
an incoming file only against the pre-existing queue, not against earlier
files of the same selection event, so a single event carrying two files
with the same name-plus-size identity puts two items with that identity
into the queue. -/
theorem claim3_counterexample :
    (handleFileSelect c3EmptyState [c3FileA, c3FileB]).selectedFiles.map
      (fun it => (it.file.name, it.file.size)) = [("a.pdf", 1), ("a.pdf", 1)] ∧
    ¬ queueNoDupIdentity (handleFileSelect c3EmptyState [c3FileA, c3FileB]).selectedFiles := by
  refine ⟨rfl, ?_⟩
  have hq : (handleFileSelect c3EmptyState [c3FileA, c3FileB]).selectedFiles =
      [⟨c3FileA, .waiting, none, none⟩, ⟨c3FileB, .waiting, none, none⟩] := rfl
  rw [queueNoDupIdentity, hq]
  decide

/-- C3 amended: for all sequences of file-selection events in which no
single event carries two files of the same name-plus-size identity, the
upload queue never contains two items with the same identity; and an event
whose every file identity is already present in the queue leaves the queue
unchanged (re-adding an existing identity is a no-op on the queue). -/
theorem claim3_enqueue_idempotent (st : PanelState) (files : List JSFile)
    (hq : queueNoDupIdentity st.selectedFiles)
    (hfiles : files.Pairwise fun f g => sameIdentity f g = false) :
    queueNoDupIdentity (handleFileSelect st files).selectedFiles ∧
    ((∀ f ∈ files, fileExistsInQueue st.selectedFiles f = true) →
      (handleFileSelect st files).selectedFiles = st.selectedFiles) := by
  constructor
  · unfold handleFileSelect
    by_cases hlen : files.length > 0
    · rw [if_pos hlen]
      dsimp only
      by_cases herr : (selectLoop st.selectedFiles files).2.length > 0 <;>
        [rw [if_pos herr]; rw [if_neg herr]] <;>
        dsimp only <;>
        by_cases hnew : (selectLoop st.selectedFiles files).1.length > 0 <;>
        [skip; skip; skip; skip] <;>
        first
        | (rw [if_pos hnew]
           dsimp only
           refine List.pairwise_append.mpr ⟨hq, selectLoop_fst_pairwise _ _ hfiles, ?_⟩
           intro a ha b hb
           have hbm := selectLoop_fst_mem st.selectedFiles files b hb
           exact (fileExistsInQueue_eq_false_iff _ _).mp hbm.2.2.2 a ha)
        | (rw [if_neg hnew]
           exact hq)
    · rw [if_neg hlen]
      exact hq
  · intro hall
    unfold handleFileSelect
    have hempty : (selectLoop st.selectedFiles files).1 = [] := by
      by_contra hne
      obtain ⟨it, hit⟩ := List.exists_mem_of_ne_nil _ hne
      have := selectLoop_fst_mem st.selectedFiles files it hit
      rw [hall it.file this.1] at this
      exact Bool.noConfusion this.2.2.2
    by_cases hlen : files.length > 0
    · rw [if_pos hlen]
      dsimp only
      by_cases herr : (selectLoop st.selectedFiles files).2.length > 0 <;>
        [rw [if_pos herr]; rw [if_neg herr]] <;>
        dsimp only <;>
        rw [if_neg (by simp [hempty])]
    · rw [if_neg hlen]

/-- Queue already holding an `a.pdf` entry, for the C3 witness. -/
def c3WitState : PanelState :=
  ⟨none, [⟨⟨"a.pdf", 5, 0⟩, .waiting, none, none⟩], false, false, none⟩

/-- A fresh `File` object with the identity already present in
`c3WitState`. -/
def c3WitFile : JSFile := ⟨"a.pdf", 5, 7⟩

/-- Witness for C3 at a concrete input: re-selecting an already-queued
identity keeps the queue duplicate-free and unchanged. -/
theorem claim3_enqueue_idempotent_witness :
    queueNoDupIdentity (handleFileSelect c3WitState [c3WitFile]).selectedFiles ∧
    (handleFileSelect c3WitState [c3WitFile]).selectedFiles =
      c3WitState.selectedFiles := by
  have h := claim3_enqueue_idempotent c3WitState [c3WitFile]
    (by rw [queueNoDupIdentity]; decide) (by decide)
  exact ⟨h.1, h.2 (by decide)⟩

/-! ### Claim C10 — only PDF files ever enter the queue -/

/-- In every branch of `handleFileSelect` the resulting queue is the old
queue followed by the selection-loop output. -/
theorem handleFileSelect_queue_eq (st : PanelState) (files : List JSFile) :
    (handleFileSelect st files).selectedFiles =
      st.selectedFiles ++ (selectLoop st.selectedFiles files).1 := by
  unfold handleFileSelect
  by_cases hlen : files.length > 0
  · rw [if_pos hlen]
    dsimp only
    by_cases herr : (selectLoop st.selectedFiles files).2.length > 0
    · rw [if_pos herr]
      dsimp only
      by_cases hnew : (selectLoop st.selectedFiles files).1.length > 0
      · rw [if_pos hnew]
      · rw [if_neg hnew]
        dsimp only
        rw [List.eq_nil_of_length_eq_zero (Nat.eq_zero_of_not_pos hnew),
          List.append_nil]
    · rw [if_neg herr]
      dsimp only
      by_cases hnew : (selectLoop st.selectedFiles files).1.length > 0
      · rw [if_pos hnew]
      · rw [if_neg hnew]
        dsimp only
        rw [List.eq_nil_of_length_eq_zero (Nat.eq_zero_of_not_pos hnew),
          List.append_nil]
  · rw [if_neg hlen]
    rw [List.eq_nil_of_length_eq_zero (Nat.eq_zero_of_not_pos hlen),
      selectLoop_nil]
    rw [List.append_nil]

/-- In every branch of `handleFileSelect` on a non-empty batch the
resulting message is the rejected-names error message when some file was
rejected, and cleared otherwise. -/
theorem handleFileSelect_message_eq (st : PanelState) (files : List JSFile)
    (hlen : files.length > 0) :
    (handleFileSelect st files).uploadMessage =
      if (selectLoop st.selectedFiles files).2.length > 0 then
        some (.unsupportedFiles (selectLoop st.selectedFiles files).2)
      else none := by
  unfold handleFileSelect
  rw [if_pos hlen]
  dsimp only
  by_cases herr : (selectLoop st.selectedFiles files).2.length > 0
  · rw [if_pos herr, if_pos herr]
    dsimp only
    by_cases hnew : (selectLoop st.selectedFiles files).1.length > 0
    · rw [if_pos hnew]
    · rw [if_neg hnew]
  · rw [if_neg herr, if_neg herr]
    dsimp only
    by_cases hnew : (selectLoop st.selectedFiles files).1.length > 0
    · rw [if_pos hnew]
    · rw [if_neg hnew]

/-- C10: for every file-selection event, a file whose name does not end in
`.pdf` (case-insensitively) is never added to the upload queue and its name
is collected into the error message listing the rejected names, while the
PDF files of the same batch not already in the queue are still enqueued as
Waiting items; hence a queue of PDF-named items stays a queue of PDF-named
items. -/
theorem claim10_pdf_only_queue (st : PanelState) (files : List JSFile) :
    ((∀ it ∈ st.selectedFiles, isPdfName it.file.name = true) →
      ∀ it ∈ (handleFileSelect st files).selectedFiles,
        isPdfName it.file.name = true) ∧
    ((files.filter fun f => !(isPdfName f.name)) ≠ [] →
      (handleFileSelect st files).uploadMessage =
        some (.unsupportedFiles
          ((files.filter fun f => !(isPdfName f.name)).map JSFile.name))) ∧
    (∀ f ∈ files, isPdfName f.name = true →
      fileExistsInQueue st.selectedFiles f = false →
      ∃ it ∈ (handleFileSelect st files).selectedFiles,
        it.file = f ∧ it.status = .waiting) := by
  refine ⟨?_, ?_, ?_⟩
  · intro hall it hit
    rw [handleFileSelect_queue_eq] at hit
    rcases List.mem_append.mp hit with hold | hnewm
    · exact hall it hold
    · exact (selectLoop_fst_mem st.selectedFiles files it hnewm).2.2.1
  · intro hrej
    have hlen : files.length > 0 := by
      rcases files with _ | ⟨f, rest⟩
      · simp at hrej
      · simp
    rw [handleFileSelect_message_eq st files hlen, selectLoop_snd_eq]
    rw [if_pos (by
      rw [List.length_map]
      exact List.length_pos.mpr hrej)]
  · intro f hf hp he
    obtain ⟨it, hit, hfile, hstat⟩ :=
      selectLoop_fst_complete st.selectedFiles files f hf hp he
    refine ⟨it, ?_, hfile, hstat⟩
    rw [handleFileSelect_queue_eq]
    exact List.mem_append.mpr (Or.inr hit)

/-- Empty panel state for the C10 witness. -/
def c10State : PanelState := ⟨none, [], false, false, none⟩

/-- A PDF file (upper-case extension) for the C10 witness. -/
def c10Pdf : JSFile := ⟨"notes.PDF", 100, 0⟩

/-- A non-PDF file for the C10 witness. -/
def c10Txt : JSFile := ⟨"readme.txt", 50, 1⟩

/-- Witness for C10 at a concrete batch: the `.txt` file is rejected into
the error message, the `.PDF` file is enqueued Waiting, and the queue stays
all-PDF. -/
theorem claim10_pdf_only_queue_witness :
    (∀ it ∈ (handleFileSelect c10State [c10Pdf, c10Txt]).selectedFiles,
      isPdfName it.file.name = true) ∧
    (handleFileSelect c10State [c10Pdf, c10Txt]).uploadMessage =
      some (.unsupportedFiles ["readme.txt"]) ∧
    ∃ it ∈ (handleFileSelect c10State [c10Pdf, c10Txt]).selectedFiles,
      it.file = c10Pdf ∧ it.status = .waiting := by
  refine ⟨?_, ?_, ?_⟩
  · exact (claim10_pdf_only_queue c10State [c10Pdf, c10Txt]).1
      (by intro it hit; cases hit)
  · exact (claim10_pdf_only_queue c10State [c10Pdf, c10Txt]).2.1 (by decide)
  · exact (claim10_pdf_only_queue c10State [c10Pdf, c10Txt]).2.2 c10Pdf
      (List.mem_cons_self _ _) (by decide) (by decide)

/-! ### Claim C4 — removing and clearing queue items -/

/-- The filter `prev.filter((_, i) => i !== index)` of line 654: it keeps
every element except the one at position `index`, written by recursion on
the list so that it evaluates definitionally. -/
def filterOutIdx : List UploadFileItem → Nat → List UploadFileItem
  | [], _ => []
  | _ :: xs, 0 => xs
  | x :: xs, n + 1 => x :: filterOutIdx xs n

/-- ChatPanel.tsx lines 652–663, `removeFileFromQueue`: drops the entry at
`index` unconditionally (no status check) and patches `selectedFile`; the
`prev[index]?.file === selectedFile` object comparison is modelled by the
`id` field. -/
def removeFileFromQueue (st : PanelState) (index : Nat) : PanelState :=
  let prev := st.selectedFiles
  let newList := filterOutIdx prev index
  let newSelectedFile :=
    if newList.length = 0 then none
    else
      match st.selectedFile, prev[index]? with
      | some sf, some it =>
          if it.file.id = sf.id then newList.head?.map (·.file) else some sf
      | _, _ => st.selectedFile
  { st with selectedFiles := newList, selectedFile := newSelectedFile }

/-- ChatPanel.tsx lines 665–672, `clearAllFiles`: unconditionally empties
the queue, resets `selectedFile` and the message (the file-input DOM reset
has no counterpart in the modelled state). -/
def clearAllFiles (st : PanelState) : PanelState :=
  { st with selectedFiles := [], selectedFile := none, uploadMessage := none }

/-- Render guard of the per-item remove button (ChatPanel.tsx line 1180):
`fileItem.status === 'waiting' && !isProcessingQueue`. -/
def removeButtonShown (st : PanelState) (index : Nat) : Bool :=
  (match st.selectedFiles[index]? with
   | some it => decide (it.status = .waiting)
   | none => false) && !st.isProcessingQueue

/-- A remove click as reachable through the UI: the handler only runs when
its button is rendered. -/
def clickRemoveFile (st : PanelState) (index : Nat) : PanelState :=
  if removeButtonShown st index then removeFileFromQueue st index else st

/-- Render guard of the clear-all button (ChatPanel.tsx line 1132):
`!isProcessingQueue`. -/
def clearAllShown (st : PanelState) : Bool := !st.isProcessingQueue

/-- A clear-all click as reachable through the UI. -/
def clickClearAllFiles (st : PanelState) : PanelState :=
  if clearAllShown st then clearAllFiles st else st

/-- Queue with a single in-flight item, for the C4 counterexample. -/
def c4State : PanelState :=
  ⟨some ⟨"a.pdf", 10, 0⟩, [⟨⟨"a.pdf", 10, 0⟩, .uploading, none, none⟩],
   true, true, none⟩

/-- Counterexample to C4 as stated.  `removeFileFromQueue` and
`clearAllFiles` perform no status check at all: applied to a queue whose
only item is InFlight (`uploading`), both simply remove it — no
`InvalidState` failure exists in the code and the queue does change. -/
theorem claim4_counterexample :
    ((c4State.selectedFiles[0]?).map UploadFileItem.status =
      some FileUploadStatus.uploading) ∧
    (removeFileFromQueue c4State 0).selectedFiles = [] ∧
    (clearAllFiles c4State).selectedFiles = [] ∧
    c4State.selectedFiles ≠ [] := by
  refine ⟨rfl, rfl, rfl, by decide⟩

/-- Elements at positions other than the removed one survive
`filterOutIdx`. -/
theorem mem_filterOutIdx (l : List UploadFileItem) (n : Nat)
    (it : UploadFileItem) (h : it ∈ l) (hne : l[n]? ≠ some it) :
    it ∈ filterOutIdx l n := by
  induction l generalizing n with
  | nil => cases h
  | cons x xs ih =>
    cases n with
    | zero =>
      rcases List.mem_cons.mp h with hrfl | hmem
      · exact absurd (by simp [hrfl]) hne
      · exact hmem
    | succ m =>
      rcases List.mem_cons.mp h with hrfl | hmem
      · rw [hrfl]
        exact List.mem_cons_self _ _
      · exact List.mem_cons_of_mem _ (ih m hmem (by simpa using hne))

/-- C4 amended: `removeFileFromQueue` and `clearAllFiles` themselves never
fail and never check status; instead the UI gates them — the remove button
is rendered only for a Waiting item while no drain is running, and the
clear-all button only while no drain is running.  Consequently a UI click
removes an item only when it is Waiting, never removes an InFlight
(`uploading`) item, and clear-all is unreachable while the queue is being
processed. -/
theorem claim4_gated_remove_and_clear (st : PanelState) (index : Nat) :
    (removeButtonShown st index = false → clickRemoveFile st index = st) ∧
    (removeButtonShown st index = true →
      (st.selectedFiles[index]?).map UploadFileItem.status =
        some FileUploadStatus.waiting ∧ st.isProcessingQueue = false) ∧
    (∀ it ∈ st.selectedFiles, it.status = .uploading →
      it ∈ (clickRemoveFile st index).selectedFiles) ∧
    (st.isProcessingQueue = true → clickClearAllFiles st = st) := by
  refine ⟨?_, ?_, ?_, ?_⟩
  · intro h
    rw [clickRemoveFile, h]
    simp
  · intro h
    rw [removeButtonShown, Bool.and_eq_true] at h
    obtain ⟨h1, h2⟩ := h
    constructor
    · cases hidx : st.selectedFiles[index]? with
      | none => rw [hidx] at h1; cases h1
      | some it =>
        rw [hidx] at h1
        simp only [decide_eq_true_eq] at h1
        simp [h1]
    · simpa using h2
  · intro it hmem hup
    by_cases hshown : removeButtonShown st index = true
    · rw [clickRemoveFile, if_pos hshown]
      show it ∈ filterOutIdx st.selectedFiles index
      rw [removeButtonShown, Bool.and_eq_true] at hshown
      refine mem_filterOutIdx _ _ _ hmem ?_
      intro hsome
      rw [hsome] at hshown
      simp [hup] at hshown
    · have hfalse : removeButtonShown st index = false := by
        simpa using hshown
      rw [clickRemoveFile, hfalse]
      simpa using hmem
  · intro h
    rw [clickClearAllFiles, clearAllShown, h]
    simp

/-- Busy panel (drain running, one Waiting and one InFlight item) for the
C4 witness. -/
def c4WitBusy : PanelState :=
  ⟨none, [⟨⟨"a.pdf", 1, 0⟩, .waiting, none, none⟩,
          ⟨⟨"b.pdf", 2, 1⟩, .uploading, none, none⟩], true, true, none⟩

/-- Idle panel (no drain running) for the C4 witness. -/
def c4WitIdle : PanelState :=
  ⟨none, [⟨⟨"a.pdf", 1, 0⟩, .waiting, none, none⟩], false, false, none⟩

/-- Witness for C4 at concrete states: while a drain runs, remove and
clear-all clicks are no-ops and the InFlight item survives; when idle, a
rendered remove button certifies a Waiting target. -/
theorem claim4_gated_remove_and_clear_witness :
    clickRemoveFile c4WitBusy 1 = c4WitBusy ∧
    (⟨⟨"b.pdf", 2, 1⟩, .uploading, none, none⟩ : UploadFileItem) ∈
      (clickRemoveFile c4WitBusy 0).selectedFiles ∧
    clickClearAllFiles c4WitBusy = c4WitBusy ∧
    ((c4WitIdle.selectedFiles[0]?).map UploadFileItem.status =
      some FileUploadStatus.waiting ∧ c4WitIdle.isProcessingQueue = false) := by
  refine ⟨(claim4_gated_remove_and_clear c4WitBusy 1).1 (by decide),
    (claim4_gated_remove_and_clear c4WitBusy 0).2.2.1 _ (by decide) rfl,
    (claim4_gated_remove_and_clear c4WitBusy 0).2.2.2 rfl,
    (claim4_gated_remove_and_clear c4WitIdle 0).2.1 (by decide)⟩

/-! ### Claim C5 — single in-flight drain -/

/-- Render guard of the Build-Index button (ChatPanel.tsx line 1216):
`selectedFiles.length === 0 || isUploading || selectedFiles.every(f => f.status !== 'waiting')`. -/
def btnUploadDisabled (st : PanelState) : Bool :=
  decide (st.selectedFiles.length = 0) || st.isUploading ||
    st.selectedFiles.all fun f => !(decide (f.status = .waiting))

/-- An upload click as reachable through the UI: a disabled button never
fires the handler, so the click is a no-op making no external call. -/
def clickUploadAndIndex (st : PanelState) (oracle : Nat → IndexOutcome) :
    PanelState × DrainOut :=
  if btnUploadDisabled st then (st, ⟨st.selectedFiles, 0, 0, 0, [], 0⟩)
  else handleUploadAndIndex st oracle

/-- Panel state with a drain already running (`isUploading = true`) and a
Waiting item, for the C5 counterexample. -/
def c5Busy : PanelState :=
  ⟨none, [⟨⟨"a.pdf", 1, 0⟩, .waiting, none, none⟩], true, true, none⟩

/-- Oracle for the C5 theorems. -/
def c5Oracle : Nat → IndexOutcome :=
  fun _ => .ok ⟨true, false, some "a.pdf", some 1, some 2, none⟩

/-- Counterexample to C5 as stated.  `handleUploadAndIndex` contains no
`AlreadyRunning` (or any re-entrancy) check: invoked while a drain is
already running (`isUploading = true`) it is not rejected — it still makes
an external call and mutates the queue state. -/
theorem claim5_counterexample :
    c5Busy.isUploading = true ∧
    (handleUploadAndIndex c5Busy c5Oracle).2.calls = 1 ∧
    ((handleUploadAndIndex c5Busy c5Oracle).1.selectedFiles[0]?).map
      UploadFileItem.status = some FileUploadStatus.success ∧
    (handleUploadAndIndex c5Busy c5Oracle).1 ≠ c5Busy := by
  refine ⟨rfl, rfl, rfl, by decide⟩

/-- C5 amended: the handler itself performs no re-entrancy check, but the
UI enforces a single in-flight drain — whenever `isUploading` is true the
Build-Index button is disabled, so a click while a drain runs is a no-op:
no state change, no status writes, and zero external calls. -/
theorem claim5_ui_single_drain (st : PanelState) (oracle : Nat → IndexOutcome)
    (h : st.isUploading = true) :
    btnUploadDisabled st = true ∧
    clickUploadAndIndex st oracle = (st, ⟨st.selectedFiles, 0, 0, 0, [], 0⟩) := by
  have hd : btnUploadDisabled st = true := by
    rw [btnUploadDisabled, h]
    simp
  refine ⟨hd, ?_⟩
  rw [clickUploadAndIndex, hd]
  simp

/-- Witness for C5: a click on the busy panel changes nothing and makes no
call. -/
theorem claim5_ui_single_drain_witness :
    btnUploadDisabled c5Busy = true ∧
    clickUploadAndIndex c5Busy c5Oracle =
      (c5Busy, ⟨c5Busy.selectedFiles, 0, 0, 0, [], 0⟩) := by
  exact claim5_ui_single_drain c5Busy c5Oracle rfl

/-! ### Topic-selection modal (ChatPanel.tsx lines 420–609) -/

/-- A `(topic, documentFilename)` pair as stored in `selectedTopics` and
`tempSelectedTopics` (lines 266, 271). -/
abbrev TopicPair := String × String

/-- ChatPanel.tsx `TopicSuggestion` values as built at lines 466–470 and
582–586: `relevance_score = 1 - idx * 0.05` is an order-reversing function
of the position `idx`, modelled by the rank `idx` itself (floating point is
not modelled); `description` is always the empty string there. -/
structure TopicSuggestion where
  name : String
  rank : Nat
  description : String
deriving DecidableEq, Repr

/-- The `Record<string, TopicSuggestion[]>` objects (`topicsCache`,
`topicsByDocument`, `tempTopicsByDocument`). -/
def TopicMap := String → Option (List TopicSuggestion)

/-- Object-spread update `{ ...prev, [k]: v }`. -/
def mapInsert (m : TopicMap) (k : String) (v : List TopicSuggestion) : TopicMap :=
  fun x => if x = k then some v else m x

/-- The `delete updated[k]` update of lines 452–456. -/
def mapErase (m : TopicMap) (k : String) : TopicMap :=
  fun x => if x = k then none else m x

/-- The empty object `{}`. -/
def emptyTopicMap : TopicMap := fun _ => none

/-- ChatPanel.tsx lines 206–211: entry of `indexedDocuments`. -/
structure IndexedDocument where
  filename : String
  original_filename : String
  topic_count : Nat
  indexed_at : String
deriving DecidableEq, Repr

/-- Slice of the DocumentRAGPanel React state driving document/topic
selection (lines 262–281): live selection, topic cache, modal scratch
state, and the edit-topics modal state.  `isSavingTopics` (set true then
false within `saveTopicsToBackend`) is omitted as its net value never
changes. -/
structure TopicState where
  selectedDocuments : List String
  selectedTopics : List TopicPair
  topicsByDocument : TopicMap
  topicsCache : TopicMap
  tempSelectedDocuments : List String
  tempSelectedTopics : List TopicPair
  tempTopicsByDocument : TopicMap
  showTopicModal : Bool
  indexedDocuments : List IndexedDocument
  editingDocumentFilename : String
  editingTopics : List String
  showEditTopicsModal : Bool

/-- The live selection state named by the spec: selected documents,
selected topics, topics-by-document. -/
def liveSelection (st : TopicState) :
    List String × List TopicPair × TopicMap :=
  (st.selectedDocuments, st.selectedTopics, st.topicsByDocument)

/-- ChatPanel.tsx lines 420–426, `openTopicModal`: copies the live
selection into the temp (scratch) states and shows the modal. -/
def openTopicModal (st : TopicState) : TopicState :=
  { st with
    tempSelectedDocuments := st.selectedDocuments,
    tempSelectedTopics := st.selectedTopics,
    tempTopicsByDocument := st.topicsByDocument,
    showTopicModal := true }

/-- ChatPanel.tsx lines 428–434, `closeTopicModal`: hides the modal and
discards the temp states. -/
def closeTopicModal (st : TopicState) : TopicState :=
  { st with
    showTopicModal := false,
    tempSelectedDocuments := [],
    tempSelectedTopics := [],
    tempTopicsByDocument := emptyTopicMap }

/-- ChatPanel.tsx lines 436–442, `saveTopicSelections`: applies the temp
selections to the live states and hides the modal. -/
def saveTopicSelections (st : TopicState) : TopicState :=
  { st with
    selectedDocuments := st.tempSelectedDocuments,
    selectedTopics := st.tempSelectedTopics,
    topicsByDocument := st.tempTopicsByDocument,
    showTopicModal := false }

/-- Response shape of the external `getDocumentTopics` call as read at
line 465 (`response.success && response.topics`). -/
structure TopicsResponse where
  success : Bool
  topics : Option (List String)
deriving DecidableEq, Repr

/-- The mapping of lines 466–470 (and 582–586): raw topic names to
`TopicSuggestion` values carrying their position. -/
def mkTopicSuggestions (names : List String) : List TopicSuggestion :=
  names.mapIdx fun idx name => ⟨name, idx, ""⟩

/-- ChatPanel.tsx lines 445–481, `toggleDocumentInModal`: removing a
selected document prunes its topics from every temp structure; adding one
loads its topics through `topicsCache`, calling the external
`getDocumentTopics` only on a cache miss.  Returns the new state and the
number of external calls made (0 or 1).  A thrown call (`Except.error`) is
logged and otherwise ignored (lines 474–476); a response without `success`
or with no `topics` array stores nothing. -/
def toggleDocumentInModal (st : TopicState)
    (oracle : String → Except Unit TopicsResponse) (filename : String) :
    TopicState × Nat :=
  if st.tempSelectedDocuments.contains filename then
    ({ st with
        tempSelectedDocuments :=
          st.tempSelectedDocuments.filter fun f => !(f == filename),
        tempSelectedTopics :=
          st.tempSelectedTopics.filter fun t => !(t.2 == filename),
        tempTopicsByDocument := mapErase st.tempTopicsByDocument filename }, 0)
  else
    let st1 :=
      { st with tempSelectedDocuments := st.tempSelectedDocuments ++ [filename] }
    match st.topicsCache filename with
    | none =>
        match oracle filename with
        | .ok r =>
            if r.success then
              match r.topics with
              | some ts =>
                  ({ st1 with
                      topicsCache :=
                        mapInsert st1.topicsCache filename (mkTopicSuggestions ts),
                      tempTopicsByDocument :=
                        mapInsert st1.tempTopicsByDocument filename
                          (mkTopicSuggestions ts) }, 1)
              | none => (st1, 1)
            else (st1, 1)
        | .error _ => (st1, 1)
    | some cached =>
        ({ st1 with
            tempTopicsByDocument :=
              mapInsert st1.tempTopicsByDocument filename cached }, 0)

/-- ChatPanel.tsx lines 484–493, `toggleTopicInModal`: toggles the pair in
the temp selected-topics list (`find` truthiness modelled by `any`). -/
def toggleTopicInModal (st : TopicState) (topic documentFilename : String) :
    TopicState :=
  { st with
    tempSelectedTopics :=
      if st.tempSelectedTopics.any fun t =>
          t.1 == topic && t.2 == documentFilename then
        st.tempSelectedTopics.filter fun t =>
          !(t.1 == topic && t.2 == documentFilename)
      else st.tempSelectedTopics ++ [(topic, documentFilename)] }

/-- ChatPanel.tsx lines 573–609, `saveTopicsToBackend`: guards on an empty
`editingDocumentFilename`, calls the external `updateDocumentTopics`
(oracle: `Except.error` is a thrown call, `Except.ok b` a response with
`success = b`), and on success updates the three topic maps, patches the
document's `topic_count`, and closes the edit modal (`closeEditTopicsModal`,
lines 532–539); on failure or throw it only alerts.  Returns the new state
and the number of external calls. -/
def saveTopicsToBackend (st : TopicState) (oracle : Except Unit Bool) :
    TopicState × Nat :=
  if st.editingDocumentFilename = "" then (st, 0)
  else
    match oracle with
    | .ok true =>
        ({ st with
            topicsCache := mapInsert st.topicsCache st.editingDocumentFilename
              (mkTopicSuggestions st.editingTopics),
            tempTopicsByDocument := mapInsert st.tempTopicsByDocument
              st.editingDocumentFilename (mkTopicSuggestions st.editingTopics),
            topicsByDocument := mapInsert st.topicsByDocument
              st.editingDocumentFilename (mkTopicSuggestions st.editingTopics),
            indexedDocuments := st.indexedDocuments.map fun doc =>
              if doc.filename = st.editingDocumentFilename then
                { doc with topic_count := st.editingTopics.length }
              else doc,
            showEditTopicsModal := false,
            editingDocumentFilename := "",
            editingTopics := [] }, 1)
    | .ok false => (st, 1)
    | .error _ => (st, 1)

/-! ### Claim C6 — topic cache -/

/-- Lookup after an object-spread insert at the inserted key. -/
theorem mapInsert_same (m : TopicMap) (k : String) (v : List TopicSuggestion) :
    mapInsert m k v k = some v := by
  simp [mapInsert]

/-- Appending a document name makes the list contain it. -/
theorem contains_append_self (l : List String) (x : String) :
    (l ++ [x]).contains x = true := by
  simp [List.contains_eq_any_beq]

/-- Filtering a document name out makes the list not contain it. -/
theorem contains_filter_self (l : List String) (x : String) :
    ((l.filter fun f => !(f == x)).contains x) = false := by
  simp [List.contains_eq_any_beq, List.any_eq_false, List.mem_filter]

/-- C6: toggling an unselected document on is a Status-Cache get: with the
document already cached it makes no external call, serves the cached set
into the modal display map and leaves the cache untouched; with the
document uncached it makes exactly one external call and, when the call
returns success with a topic list, stores the full mapped set in the cache
and the display map, after which toggling the document off and on again is
served from the cache with no further external call. -/
theorem claim6_topic_cache (st : TopicState)
    (oracle : String → Except Unit TopicsResponse) (filename : String)
    (hnotsel : st.tempSelectedDocuments.contains filename = false) :
    (∀ ts, st.topicsCache filename = some ts →
      (toggleDocumentInModal st oracle filename).2 = 0 ∧
      (toggleDocumentInModal st oracle filename).1.tempTopicsByDocument
        filename = some ts ∧
      (toggleDocumentInModal st oracle filename).1.topicsCache =
        st.topicsCache) ∧
    (st.topicsCache filename = none →
      ((toggleDocumentInModal st oracle filename).2 = 1 ∧
       ∀ ts, oracle filename = .ok ⟨true, some ts⟩ →
        (toggleDocumentInModal st oracle filename).1.topicsCache filename =
          some (mkTopicSuggestions ts) ∧
        (toggleDocumentInModal st oracle filename).1.tempTopicsByDocument
          filename = some (mkTopicSuggestions ts) ∧
        ∀ oracle2 : String → Except Unit TopicsResponse,
          (toggleDocumentInModal (toggleDocumentInModal
            (toggleDocumentInModal st oracle filename).1 oracle2 filename).1
            oracle2 filename).2 = 0 ∧
          (toggleDocumentInModal (toggleDocumentInModal
            (toggleDocumentInModal st oracle filename).1 oracle2 filename).1
            oracle2 filename).1.tempTopicsByDocument filename =
            some (mkTopicSuggestions ts))) := by
  have hmem : filename ∉ st.tempSelectedDocuments := by
    simpa using hnotsel
  constructor
  · intro ts hts
    refine ⟨?_, ?_, ?_⟩ <;>
      simp [toggleDocumentInModal, hmem, hts, mapInsert]
  · intro hnone
    constructor
    · cases ho : oracle filename with
      | error e => simp [toggleDocumentInModal, hmem, hnone, ho]
      | ok r =>
        rcases r with ⟨s, tso⟩
        cases s <;> cases tso <;>
          simp [toggleDocumentInModal, hmem, hnone, ho]
    · intro ts ho
      have hcache1 : (toggleDocumentInModal st oracle filename).1.topicsCache =
          mapInsert st.topicsCache filename (mkTopicSuggestions ts) := by
        simp [toggleDocumentInModal, hmem, hnone, ho]
      have htemp1 :
          (toggleDocumentInModal st oracle filename).1.tempTopicsByDocument =
          mapInsert st.tempTopicsByDocument filename (mkTopicSuggestions ts) := by
        simp [toggleDocumentInModal, hmem, hnone, ho]
      have hdocs1 :
          (toggleDocumentInModal st oracle filename).1.tempSelectedDocuments =
          st.tempSelectedDocuments ++ [filename] := by
        simp [toggleDocumentInModal, hmem, hnone, ho]
      refine ⟨by rw [hcache1, mapInsert_same], by rw [htemp1, mapInsert_same], ?_⟩
      intro oracle2
      set st1 := (toggleDocumentInModal st oracle filename).1 with hst1
      have h2mem : filename ∈ st1.tempSelectedDocuments := by
        rw [hdocs1]
        exact List.mem_append.mpr (Or.inr (List.mem_singleton.mpr rfl))
      set st2 := (toggleDocumentInModal st1 oracle2 filename).1 with hst2
      have hdocs2 : st2.tempSelectedDocuments =
          st1.tempSelectedDocuments.filter fun f => !(f == filename) := by
        rw [hst2]
        simp [toggleDocumentInModal, h2mem]
      have hcache2 : st2.topicsCache = st1.topicsCache := by
        rw [hst2]
        simp [toggleDocumentInModal, h2mem]
      have h3mem : filename ∉ st2.tempSelectedDocuments := by
        rw [hdocs2]
        simp
      have h3cache : st2.topicsCache filename = some (mkTopicSuggestions ts) := by
        rw [hcache2, hcache1, mapInsert_same]
      constructor
      · simp [toggleDocumentInModal, h3mem, h3cache]
      · simp [toggleDocumentInModal, h3mem, h3cache, mapInsert_same]

/-- Base modal state for the C6 witness: modal open, nothing selected,
empty cache. -/
def c6State : TopicState :=
  ⟨[], [], emptyTopicMap, emptyTopicMap, [], [], emptyTopicMap, true, [],
   "", [], false⟩

/-- Oracle for the C6 witness: extraction returns two topics. -/
def c6Oracle : String → Except Unit TopicsResponse :=
  fun _ => .ok ⟨true, some ["t1", "t2"]⟩

/-- Modal state with `doc.pdf` already cached, for the C6 witness. -/
def c6CachedState : TopicState :=
  { c6State with
    topicsCache := mapInsert emptyTopicMap "doc.pdf" [⟨"t1", 0, ""⟩] }

/-- Witness for C6 at concrete states: an uncached get makes one call and
stores the full set, the off/on re-toggle is then served with zero calls,
and a cached get makes zero calls serving the cached set. -/
theorem claim6_topic_cache_witness :
    (toggleDocumentInModal c6State c6Oracle "doc.pdf").2 = 1 ∧
    (toggleDocumentInModal c6State c6Oracle "doc.pdf").1.topicsCache
      "doc.pdf" = some [⟨"t1", 0, ""⟩, ⟨"t2", 1, ""⟩] ∧
    (toggleDocumentInModal (toggleDocumentInModal (toggleDocumentInModal
      c6State c6Oracle "doc.pdf").1 c6Oracle "doc.pdf").1 c6Oracle
      "doc.pdf").2 = 0 ∧
    (toggleDocumentInModal c6CachedState c6Oracle "doc.pdf").2 = 0 ∧
    (toggleDocumentInModal c6CachedState c6Oracle
      "doc.pdf").1.tempTopicsByDocument "doc.pdf" = some [⟨"t1", 0, ""⟩] := by
  have h := claim6_topic_cache c6State c6Oracle "doc.pdf" (by decide)
  have hu := h.2 rfl
  have hts := hu.2 ["t1", "t2"] rfl
  have h2 := claim6_topic_cache c6CachedState c6Oracle "doc.pdf" (by decide)
  have hc := h2.1 [⟨"t1", 0, ""⟩] (by decide)
  exact ⟨hu.1, hts.1, (hts.2.2 c6Oracle).1, hc.1, hc.2.1⟩

/-! ### Claim C7 — live selection only changes on commit -/

/-- One scratch-state mutation available inside the topic modal, carrying
the oracle its handler would use. -/
inductive ModalOp where
  | toggleDoc (oracle : String → Except Unit TopicsResponse) (filename : String)
  | toggleTopic (topic documentFilename : String)

/-- Apply one modal mutation. -/
def applyModalOp (st : TopicState) : ModalOp → TopicState
  | .toggleDoc oracle filename => (toggleDocumentInModal st oracle filename).1
  | .toggleTopic t d => toggleTopicInModal st t d

/-- Apply a sequence of modal mutations in order. -/
def applyModalOps (st : TopicState) : List ModalOp → TopicState
  | [] => st
  | op :: rest => applyModalOps (applyModalOp st op) rest

/-- Neither modal toggle touches the live selection state. -/
theorem liveSelection_applyModalOp (st : TopicState) (op : ModalOp) :
    liveSelection (applyModalOp st op) = liveSelection st := by
  cases op with
  | toggleDoc oracle filename =>
    rw [applyModalOp]
    by_cases hmem : filename ∈ st.tempSelectedDocuments
    · simp [toggleDocumentInModal, hmem, liveSelection]
    · cases hc : st.topicsCache filename with
      | none =>
        cases ho : oracle filename with
        | error e => simp [toggleDocumentInModal, hmem, hc, ho, liveSelection]
        | ok r =>
          by_cases hs : r.success
          · cases ht : r.topics <;>
              simp [toggleDocumentInModal, hmem, hc, ho, hs, ht, liveSelection]
          · simp [toggleDocumentInModal, hmem, hc, ho, hs, liveSelection]
      | some cached => simp [toggleDocumentInModal, hmem, hc, liveSelection]
  | toggleTopic t d => rfl

/-- No sequence of modal mutations touches the live selection state. -/
theorem liveSelection_applyModalOps (ops : List ModalOp) :
    ∀ st, liveSelection (applyModalOps st ops) = liveSelection st := by
  induction ops with
  | nil => intro st; rfl
  | cons op rest ih =>
    intro st
    rw [applyModalOps, ih, liveSelection_applyModalOp]

/-- Edit-modal state whose backend save mutates the live
`topicsByDocument`, for the C7 counterexample. -/
def c7State : TopicState :=
  ⟨[], [], emptyTopicMap, emptyTopicMap, [], [], emptyTopicMap, false, [],
   "doc.pdf", ["t"], true⟩

/-- Counterexample to C7 as stated.  The claim says the live selection
state (selected documents, selected topics, topics-by-document) is only
ever mutated by `saveTopicSelections`.  But `saveTopicsToBackend` (the
edit-topics save, listed among the claim's sources) also writes the live
`topicsByDocument` on a successful backend response — here it changes the
entry for `doc.pdf` from absent to a one-topic set without any
`saveTopicSelections` call. -/
theorem claim7_counterexample :
    c7State.topicsByDocument "doc.pdf" = none ∧
    (saveTopicsToBackend c7State (.ok true)).1.topicsByDocument "doc.pdf" =
      some [⟨"t", 0, ""⟩] := by
  exact ⟨rfl, by decide⟩

/-- C7 amended: among the topic-modal operations, the live selection state
is only mutated by `saveTopicSelections`: after `openTopicModal` followed
by any sequence of `toggleDocumentInModal`/`toggleTopicInModal` scratch
mutations, `closeTopicModal` leaves the live selection state bit-for-bit
identical to its value before `openTopicModal` (whereas
`saveTopicsToBackend`, the edit-topics save, additionally updates the live
`topicsByDocument` on success — see `claim7_counterexample`). -/
theorem claim7_discard_preserves_live (st : TopicState) (ops : List ModalOp) :
    liveSelection (closeTopicModal (applyModalOps (openTopicModal st) ops)) =
      liveSelection st ∧
    liveSelection (applyModalOps (openTopicModal st) ops) = liveSelection st := by
  have h1 : liveSelection (applyModalOps (openTopicModal st) ops) =
      liveSelection (openTopicModal st) := liveSelection_applyModalOps ops _
  exact ⟨h1, h1⟩

/-! ### Claim C8 — toggling a topic pair -/

/-- Modal state with no document selected, for the C8 counterexample. -/
def c8State : TopicState :=
  ⟨[], [], emptyTopicMap, emptyTopicMap, [], [], emptyTopicMap, true, [],
   "", [], false⟩

/-- Counterexample to C8 as stated.  `toggleTopicInModal` never consults
`tempSelectedDocuments`: with the scratch document set empty, toggling a
topic of the unselected document `d` still inserts the pair into the
scratch selection set — not a no-op. -/
theorem claim8_counterexample :
    c8State.tempSelectedDocuments = [] ∧
    (toggleTopicInModal c8State "t" "d").tempSelectedTopics = [("t", "d")] := by
  exact ⟨rfl, by decide⟩

/-- C8 amended: `toggleTopicInModal` unconditionally toggles the
`(topic, documentId)` pair in the scratch selection set — membership of the
pair flips, every other pair is untouched — with no check that
`documentId` is in the scratch document set (which it also never modifies;
the UI only renders topic checkboxes for selected documents).  The live
selection state is untouched. -/
theorem claim8_toggle_topic (st : TopicState) (topic documentFilename : String) :
    (((topic, documentFilename) ∈
        (toggleTopicInModal st topic documentFilename).tempSelectedTopics) ↔
      (topic, documentFilename) ∉ st.tempSelectedTopics) ∧
    (∀ p : TopicPair, p ≠ (topic, documentFilename) →
      (p ∈ (toggleTopicInModal st topic documentFilename).tempSelectedTopics ↔
        p ∈ st.tempSelectedTopics)) ∧
    (toggleTopicInModal st topic documentFilename).tempSelectedDocuments =
      st.tempSelectedDocuments ∧
    liveSelection (toggleTopicInModal st topic documentFilename) =
      liveSelection st := by
  refine ⟨?_, ?_, rfl, rfl⟩
  · rw [toggleTopicInModal]
    by_cases hany : st.tempSelectedTopics.any fun t =>
        t.1 == topic && t.2 == documentFilename
    · rw [if_pos hany]
      dsimp only
      constructor
      · intro hmemf
        have := (List.mem_filter.mp hmemf).2
        simp at this
      · intro hnot
        exfalso
        obtain ⟨x, hx, hxeq⟩ := List.any_eq_true.mp hany
        simp only [Bool.and_eq_true, beq_iff_eq] at hxeq
        apply hnot
        have : x = (topic, documentFilename) := Prod.ext hxeq.1 hxeq.2
        rwa [this] at hx
    · rw [if_neg hany]
      dsimp only
      have hnotin : (topic, documentFilename) ∉ st.tempSelectedTopics := by
        intro hmem
        apply hany
        exact List.any_eq_true.mpr ⟨_, hmem, by simp⟩
      simp [hnotin]
  · intro p hp
    rw [toggleTopicInModal]
    by_cases hany : st.tempSelectedTopics.any fun t =>
        t.1 == topic && t.2 == documentFilename
    · rw [if_pos hany]
      dsimp only
      rw [List.mem_filter]
      constructor
      · exact fun h => h.1
      · intro hmem
        refine ⟨hmem, ?_⟩
        by_cases h1 : p.1 = topic
        · by_cases h2 : p.2 = documentFilename
          · exact absurd (Prod.ext h1 h2) hp
          · simp [h2]
        · simp [h1]
    · rw [if_neg hany]
      dsimp only
      rw [List.mem_append]
      constructor
      · intro h
        rcases h with h | h
        · exact h
        · exact absurd (List.mem_singleton.mp h) hp
      · exact Or.inl

/-- Modal state holding one selected pair, for the C8 witness. -/
def c8WitState : TopicState :=
  ⟨[], [], emptyTopicMap, emptyTopicMap, ["x"], [("a", "x")], emptyTopicMap,
   true, [], "", [], false⟩

/-- Witness for C8 at a concrete state: toggling the present pair removes
it, every other pair is untouched, and the document set is untouched. -/
theorem claim8_toggle_topic_witness :
    ((("a", "x") : TopicPair) ∈
        (toggleTopicInModal c8WitState "a" "x").tempSelectedTopics ↔
      (("a", "x") : TopicPair) ∉ c8WitState.tempSelectedTopics) ∧
    ((("b", "x") : TopicPair) ∈
        (toggleTopicInModal c8WitState "a" "x").tempSelectedTopics ↔
      (("b", "x") : TopicPair) ∈ c8WitState.tempSelectedTopics) ∧
    (toggleTopicInModal c8WitState "a" "x").tempSelectedDocuments = ["x"] := by
  refine ⟨(claim8_toggle_topic c8WitState "a" "x").1,
    (claim8_toggle_topic c8WitState "a" "x").2.1 ("b", "x") (by decide),
    (claim8_toggle_topic c8WitState "a" "x").2.2.1⟩

/-! ### Claim C9 — quiz generation (`handleGenerateQuiz`, lines 853–891) -/

/-- JavaScript `String.trim()` modelled over the character list (core
`String.trim` does not reduce definitionally). -/
def strTrim (s : String) : String :=
  ⟨((s.data.dropWhile fun c => c.isWhitespace).reverse.dropWhile
    fun c => c.isWhitespace).reverse⟩

/-- The quiz error display text, abstracting the Vietnamese strings. -/
inductive QuizError where
  /-- line 860: the choose-a-topic prompt. -/
  | emptySelectionPrompt
  /-- line 883: `response.error` when non-null. -/
  | responseError (e : String)
  /-- line 883: the fixed fallback when `response.error` is null. -/
  | noQuizFallback
  /-- line 887: the fixed connectivity text of the `catch` branch. -/
  | transportError
deriving DecidableEq, Repr

/-- Request payload of the external `generateQuiz` call (lines 871–877). -/
structure GenerateQuizRequest where
  topics : List String
  num_questions : Nat
  difficulty : String
  language : String
  selected_documents : Option (List String)
deriving DecidableEq, Repr

/-- Response shape of the external `generateQuiz` call as read at
lines 879–884; the `QuizQuestion` payloads are abstracted to opaque
strings. -/
structure GenerateQuizResponse where
  success : Bool
  questions : List String
  error : Option String
deriving DecidableEq, Repr

/-- Slice of the DocumentRAGPanel React state written by
`handleGenerateQuiz` (lines 254–257, 284).  The `editingQuestionIndex` and
`editingQuestion` resets are omitted (reset to `null` unconditionally,
touched by no claim). -/
structure QuizState where
  generatedQuiz : List String
  quizError : Option QuizError
  showQuizModal : Bool
  isGeneratingQuiz : Bool
deriving DecidableEq, Repr

/-- Lines 855–857: the effective topics list — the selected topic pairs if
any, else the trimmed manual topic if non-blank, else empty. -/
def quizTopicsList (selectedTopics : List TopicPair) (quizTopic : String) :
    List String :=
  if selectedTopics.length > 0 then selectedTopics.map Prod.fst
  else if strTrim quizTopic ≠ "" then [strTrim quizTopic] else []

/-- The request built at lines 871–877. -/
def mkQuizRequest (selectedTopics : List TopicPair) (quizTopic : String)
    (numQuestions : Nat) (difficulty language : String)
    (selectedDocuments : List String) : GenerateQuizRequest :=
  ⟨quizTopicsList selectedTopics quizTopic, numQuestions, difficulty,
   language,
   if selectedDocuments.length > 0 then some selectedDocuments else none⟩

/-- ChatPanel.tsx lines 853–891, `handleGenerateQuiz`: empty-topics guard,
one external `generateQuiz` call, result/error handling.  Returns the new
state and the list of requests issued. -/
def handleGenerateQuiz (st : QuizState) (selectedTopics : List TopicPair)
    (quizTopic : String) (numQuestions : Nat) (difficulty language : String)
    (selectedDocuments : List String)
    (oracle : GenerateQuizRequest → Except String GenerateQuizResponse) :
    QuizState × List GenerateQuizRequest :=
  if (quizTopicsList selectedTopics quizTopic).length = 0 then
    ({ st with quizError := some .emptySelectionPrompt }, [])
  else
    let req := mkQuizRequest selectedTopics quizTopic numQuestions difficulty
      language selectedDocuments
    match oracle req with
    | .ok r =>
        if r.success = true ∧ 0 < r.questions.length then
          ({ st with generatedQuiz := r.questions, quizError := none,
                     showQuizModal := true, isGeneratingQuiz := false }, [req])
        else
          ({ st with generatedQuiz := [],
                     quizError := some (match r.error with
                       | some e => .responseError e
                       | none => .noQuizFallback),
                     isGeneratingQuiz := false }, [req])
    | .error _ =>
        ({ st with generatedQuiz := [], quizError := some .transportError,
                   isGeneratingQuiz := false }, [req])

/-- Quiz state for the C9 theorems. -/
def c9St : QuizState := ⟨[], none, false, false⟩

/-- Oracle throwing a transport error, for the C9 counterexample. -/
def c9OracleBoom : GenerateQuizRequest → Except String GenerateQuizResponse :=
  fun _ => .error "boom"

/-- Counterexample to C9 as stated.  The claim says the external call's
result or error is surfaced unmodified; but when the call throws, the
`catch` branch discards the thrown error ("boom") and surfaces a fixed
generic connectivity message instead. -/
theorem claim9_counterexample :
    (handleGenerateQuiz c9St [("t", "d")] "" 5 "medium" "vi" []
      c9OracleBoom).1.quizError = some .transportError ∧
    some QuizError.transportError ≠ some (QuizError.responseError "boom") := by
  exact ⟨rfl, by decide⟩

/-- C9 amended: with an empty effective selection (no selected topics and a
blank manual topic) the generate call is rejected synchronously with the
choose-a-topic error and zero external calls; with a non-empty selection it
issues exactly one external call and surfaces a successful non-empty
question list unmodified; a structured error field is surfaced unmodified,
but a missing error field is replaced by a fixed fallback, a success
response with zero questions is reported as an error, and a thrown
transport error is replaced by a fixed connectivity message. -/
theorem claim9_generate_quiz (st : QuizState) (selectedTopics : List TopicPair)
    (quizTopic : String) (numQuestions : Nat) (difficulty language : String)
    (selectedDocuments : List String)
    (oracle : GenerateQuizRequest → Except String GenerateQuizResponse) :
    (quizTopicsList selectedTopics quizTopic = [] →
      (handleGenerateQuiz st selectedTopics quizTopic numQuestions difficulty
        language selectedDocuments oracle).2 = [] ∧
      (handleGenerateQuiz st selectedTopics quizTopic numQuestions difficulty
        language selectedDocuments oracle).1.quizError =
        some .emptySelectionPrompt ∧
      (handleGenerateQuiz st selectedTopics quizTopic numQuestions difficulty
        language selectedDocuments oracle).1.generatedQuiz =
        st.generatedQuiz) ∧
    (quizTopicsList selectedTopics quizTopic ≠ [] →
      (handleGenerateQuiz st selectedTopics quizTopic numQuestions difficulty
        language selectedDocuments oracle).2 =
        [mkQuizRequest selectedTopics quizTopic numQuestions difficulty
          language selectedDocuments] ∧
      (∀ r, oracle (mkQuizRequest selectedTopics quizTopic numQuestions
          difficulty language selectedDocuments) = .ok r →
        (r.success = true → 0 < r.questions.length →
          (handleGenerateQuiz st selectedTopics quizTopic numQuestions
            difficulty language selectedDocuments oracle).1.generatedQuiz =
            r.questions ∧
          (handleGenerateQuiz st selectedTopics quizTopic numQuestions
            difficulty language selectedDocuments oracle).1.showQuizModal =
            true ∧
          (handleGenerateQuiz st selectedTopics quizTopic numQuestions
            difficulty language selectedDocuments oracle).1.quizError =
            none) ∧
        (∀ e, r.error = some e →
          ¬(r.success = true ∧ 0 < r.questions.length) →
          (handleGenerateQuiz st selectedTopics quizTopic numQuestions
            difficulty language selectedDocuments oracle).1.quizError =
            some (.responseError e))) ∧
      (∀ e, oracle (mkQuizRequest selectedTopics quizTopic numQuestions
          difficulty language selectedDocuments) = .error e →
        (handleGenerateQuiz st selectedTopics quizTopic numQuestions
          difficulty language selectedDocuments oracle).1.quizError =
          some .transportError)) := by
  constructor
  · intro hempty
    rw [handleGenerateQuiz, if_pos (by rw [hempty]; rfl)]
    exact ⟨rfl, rfl, rfl⟩
  · intro hne
    have hlen : ¬(quizTopicsList selectedTopics quizTopic).length = 0 := by
      simpa using hne
    refine ⟨?_, ?_, ?_⟩
    · cases ho : oracle (mkQuizRequest selectedTopics quizTopic numQuestions
          difficulty language selectedDocuments) with
      | ok r =>
        by_cases hgood : r.success = true ∧ 0 < r.questions.length
        · simp [handleGenerateQuiz, hlen, ho, hgood]
        · simp [handleGenerateQuiz, hlen, ho, hgood]
      | error e => simp [handleGenerateQuiz, hlen, ho]
    · intro r ho
      constructor
      · intro hs hq
        simp [handleGenerateQuiz, hlen, ho, hs, hq]
      · intro e herr hbad
        simp [handleGenerateQuiz, hlen, ho, hbad, herr]
    · intro e ho
      simp [handleGenerateQuiz, hlen, ho]

/-- Oracle returning a successful two-question quiz, for the C9 witness. -/
def c9OracleGood : GenerateQuizRequest → Except String GenerateQuizResponse :=
  fun _ => .ok ⟨true, ["q1", "q2"], none⟩

/-- Oracle returning an application-level failure with an error message,
for the C9 witness. -/
def c9OracleBad : GenerateQuizRequest → Except String GenerateQuizResponse :=
  fun _ => .ok ⟨false, [], some "bad topic"⟩

/-- Witness for C9 at concrete inputs: an empty selection is rejected with
zero calls; a non-empty selection issues one call and surfaces the
questions, and a structured error string is surfaced unmodified. -/
theorem claim9_generate_quiz_witness :
    (handleGenerateQuiz c9St [] "" 5 "medium" "vi" [] c9OracleGood).2 = [] ∧
    (handleGenerateQuiz c9St [] "" 5 "medium" "vi" []
      c9OracleGood).1.quizError = some .emptySelectionPrompt ∧
    (handleGenerateQuiz c9St [("t", "d")] "" 5 "medium" "vi" []
      c9OracleGood).2.length = 1 ∧
    (handleGenerateQuiz c9St [("t", "d")] "" 5 "medium" "vi" []
      c9OracleGood).1.generatedQuiz = ["q1", "q2"] ∧
    (handleGenerateQuiz c9St [("t", "d")] "" 5 "medium" "vi" []
      c9OracleBad).1.quizError = some (.responseError "bad topic") := by
  have he := (claim9_generate_quiz c9St [] "" 5 "medium" "vi" []
    c9OracleGood).1 (by decide)
  have hg := (claim9_generate_quiz c9St [("t", "d")] "" 5 "medium" "vi" []
    c9OracleGood).2 (by decide)
  have hb := (claim9_generate_quiz c9St [("t", "d")] "" 5 "medium" "vi" []
    c9OracleBad).2 (by decide)
  refine ⟨he.1, he.2.1, ?_, ?_, ?_⟩
  · rw [hg.1]
    rfl
  · exact ((hg.2.1 _ rfl).1 rfl (by decide)).1
  · exact (hb.2.1 _ rfl).2 "bad topic" rfl (by decide)
